import Mathlib

/-!
Verification of the thumbnail render-orchestration pipeline of the
Substance-Designer-Toolsets repository (`sat_tools`), against its
natural-language specification.

The Python modules embedded here:
  * `sat_tools/thumbnail/renderer.py` — `ThumbnailRenderer` (`_parse_graph_info`,
    `find_best_graph`, `cook_sbs`, `_render_material_ball`, `render`);
  * `sat_tools/thumbnail/batch.py` — `BatchProcessor` (`process_directory`,
    `process_parallel`) and `BatchResult`;
  * `sat_tools/core/baker.py` — the per-channel render loop of `bake`;
  * `sat_tools/core/callback.py` — `CallbackManager` async queueing.

Pure logic is translated directly; interactions with the outside world
(the spawned `sbscooker`/`sbsrender` processes, the filesystem) are made
explicit inputs: a `RunResult` value stands for the outcome of one
`subprocess.run` call, and booleans such as `existsAfter` stand for the
`Path.exists` checks the code performs.  Every definition is executable
(structural or fuel-bounded recursion), so concrete witnesses evaluate
by `decide`/`rfl`.
-/

namespace SatTools

/-! ## Python string builtins

The parser/selector code uses `str.strip`, `str.split()` (whitespace mode),
`str.startswith`, `str.replace(old, '')`, `str.lower`, `in` (substring) and
`str.splitlines`.  They are modelled over `String.data` with structural
recursion.  Only ASCII whitespace/casing occurs in the protocol text, so
`Char.isWhitespace`/`Char.toLower` are a faithful model of the Python
behaviour on the inputs concerned. -/

/-- Python `str.strip()`: drop whitespace at both ends. -/
def strip (s : String) : String :=
  ⟨((s.data.dropWhile Char.isWhitespace).reverse.dropWhile Char.isWhitespace).reverse⟩

/-- Python `str.startswith(p)`. -/
def startsWith (s p : String) : Bool :=
  p.data.isPrefixOf s.data

/-- Helper for `splitWs`: accumulate the current chunk (reversed). -/
def splitWsAux : List Char → List Char → List (List Char)
  | [], acc => if acc = [] then [] else [acc.reverse]
  | c :: cs, acc =>
    if c.isWhitespace then
      if acc = [] then splitWsAux cs [] else acc.reverse :: splitWsAux cs []
    else splitWsAux cs (c :: acc)

/-- Python `str.split()` with no argument: split on runs of whitespace,
no empty chunks. -/
def splitWs (s : String) : List String :=
  (splitWsAux s.data []).map String.mk

/-- Fuel-bounded worker for `removeAll`; fuel `≥` input length suffices
because every step consumes at least one character when `pat ≠ []`. -/
def removeAllFuel : Nat → List Char → List Char → List Char
  | 0, _, l => l
  | _ + 1, _, [] => []
  | fuel + 1, pat, c :: cs =>
    if pat ≠ [] ∧ pat.isPrefixOf (c :: cs) then
      removeAllFuel fuel pat ((c :: cs).drop pat.length)
    else c :: removeAllFuel fuel pat cs

/-- Python `s.replace(pat, '')`: remove every (left-to-right,
non-overlapping) occurrence of `pat`. -/
def removeAll (s pat : String) : String :=
  ⟨removeAllFuel s.data.length pat.data s.data⟩

/-- Python `str.lower()` (ASCII). -/
def lowerStr (s : String) : String :=
  ⟨s.data.map Char.toLower⟩

/-- Substring test on character lists: Python `pat in s`. -/
def listContainsSub (pat : List Char) : List Char → Bool
  | [] => pat.isPrefixOf []
  | c :: cs => pat.isPrefixOf (c :: cs) || listContainsSub pat cs

/-- Python `pat in s` for strings. -/
def containsSub (s pat : String) : Bool :=
  listContainsSub pat.data s.data

/-- Worker for `splitlines`: a newline terminates the (possibly empty)
current line; a final chunk after the last newline counts only when
nonempty. -/
def splitLinesAux : List Char → List Char → List String
  | [], acc => if acc = [] then [] else [⟨acc.reverse⟩]
  | '\n' :: cs, acc => String.mk acc.reverse :: splitLinesAux cs []
  | c :: cs, acc => splitLinesAux cs (c :: acc)

/-- Python `str.splitlines()` for `\n`-separated text: no trailing empty
line, and `""` gives `[]`. -/
def splitlines (s : String) : List String :=
  splitLinesAux s.data []

/-- Python truthiness of `a or b` for an optional string: `None` and `""`
are falsy. -/
def pyOr (s : Option String) (d : String) : String :=
  match s with
  | none => d
  | some v => if v = "" then d else v

/-! ## Loop-as-search helpers

The Python `for … return` loops are modelled by first-hit searches. -/

/-- First element satisfying `p` (a `for`/`if`/`return` loop). -/
def findFirst (p : α → Bool) : List α → Option α
  | [] => none
  | a :: l => if p a then some a else findFirst p l

/-- First `some` produced by `f` (nested loops returning on first hit). -/
def findFirstSome (f : α → Option β) : List α → Option β
  | [] => none
  | a :: l =>
    match f a with
    | some b => some b
    | none => findFirstSome f l

/-! ## Data model (`renderer.py` dataclasses) -/

/-- `GraphOutput`: a declared renderable channel of a graph. -/
structure GraphOutput where
  name : String
  usage : String
deriving DecidableEq, Repr

/-- `GraphInfo`: one graph of an SBSAR package, as parsed from the
`sbsrender info` report. -/
structure GraphInfo where
  url : String
  name : String
  inputs : List String
  outputs : List GraphOutput
deriving DecidableEq, Repr

/-- `RenderResult`: terminal record of one render operation. -/
structure RenderResult where
  success : Bool
  output_path : String
  graph_name : String
  resolution : Nat × Nat
  error : Option String
deriving DecidableEq, Repr

/-- Outcome of one `subprocess.run` call: completed with an exit code and
captured streams, raised `TimeoutExpired`, or raised another exception. -/
inductive RunResult where
  | completed (returncode : Int) (stdout stderr : String)
  | timedOut (msg : String)
  | raised (msg : String)
deriving DecidableEq, Repr

/-- Exit code of a completed process; `none` when no exit code was
produced (exception or timeout). -/
def RunResult.exitCode : RunResult → Option Int
  | .completed rc _ _ => some rc
  | _ => none

/-! ## `_parse_graph_info` (renderer.py lines 150-192)

A line-oriented state machine: `GRAPH-URL` lines flush the in-progress
graph and start a new one; `INPUT`/`OUTPUT` lines attach to the current
graph; everything else is skipped.  The Python loop carries
`current_graph`; the recursion carries it as an `Option GraphInfo`. -/

/-- Is this (raw) line a graph declaration?  Python strips first, then
`line.startswith('GRAPH-URL')`. -/
def isDecl (l : String) : Bool :=
  startsWith (strip l) "GRAPH-URL"

/-- Build the fresh `GraphInfo` from a `GRAPH-URL` line:
`url = line.replace('GRAPH-URL', '').strip()`, and the name strips a
leading `pkg://` scheme (via `replace`, i.e. removing all occurrences). -/
def newGraph (l : String) : GraphInfo :=
  let url := strip (removeAll (strip l) "GRAPH-URL")
  let name := if startsWith url "pkg://" then removeAll url "pkg://" else url
  ⟨url, name, [], []⟩

/-- Apply one non-declaration line to the current graph: `INPUT` lines with
at least 2 whitespace tokens append the 2nd token to `inputs`; `OUTPUT`
lines with at least 3 tokens append `⟨2nd, 3rd⟩` to `outputs`; anything
else (including malformed lines) leaves the graph unchanged. -/
def applyLine (g : GraphInfo) (l : String) : GraphInfo :=
  let line := strip l
  if startsWith line "INPUT" then
    match splitWs line with
    | _ :: x :: _ => { g with inputs := g.inputs ++ [x] }
    | _ => g
  else if startsWith line "OUTPUT" then
    match splitWs line with
    | _ :: n :: u :: _ => { g with outputs := g.outputs ++ [⟨n, u⟩] }
    | _ => g
  else g

/-- The parse loop over the report's lines, carrying `current_graph`.
At end of input the in-progress graph is flushed. -/
def parseGo : List String → Option GraphInfo → List GraphInfo
  | [], none => []
  | [], some g => [g]
  | l :: ls, cur =>
    if isDecl l then
      match cur with
      | some g => g :: parseGo ls (some (newGraph l))
      | none => parseGo ls (some (newGraph l))
    else
      match cur with
      | none => parseGo ls none
      | some g => parseGo ls (some (applyLine g l))

/-- `ThumbnailRenderer._parse_graph_info`: parse the full report text. -/
def _parse_graph_info (info_output : String) : List GraphInfo :=
  parseGo (splitlines info_output) none

/-! ## `find_best_graph` (renderer.py lines 194-223) -/

/-- The priority list of output names/usages for a thumbnail
(renderer.py lines 199-202). -/
def priority_outputs : List String :=
  ["basecolor", "baseColor", "diffuse", "albedo",
   "Base_Color", "base_color", "Diffuse", "Albedo"]

/-- Case-insensitive match of one output against one priority term, on
either `name` or `usage` (renderer.py lines 212-213). -/
def matchesPriority (priority : String) (output : GraphOutput) : Bool :=
  lowerStr output.name == lowerStr priority ||
    lowerStr output.usage == lowerStr priority

/-- The per-graph body of the first loop of `find_best_graph`: skip a
graph with no outputs, else scan priorities (outer) and outputs (inner)
and return the first hit as `(graph.name, output.name)`. -/
def graphPriorityMatch (g : GraphInfo) : Option (String × String) :=
  if g.outputs = [] then none
  else
    (findFirstSome (fun p => findFirst (matchesPriority p) g.outputs)
        priority_outputs).map
      fun o => (g.name, o.name)

/-- `ThumbnailRenderer.find_best_graph`: graphs are scanned in declaration
order (outer loop); within a graph, priorities outer and outputs inner;
fallback to the first graph with any outputs; else `(none, none)`. -/
def find_best_graph (graphs : List GraphInfo) : Option String × Option String :=
  match findFirstSome graphPriorityMatch graphs with
  | some (gn, outn) => (some gn, some outn)
  | none =>
    match findFirstSome
        (fun g =>
          match g.outputs with
          | [] => none
          | o :: _ => some (g.name, o.name)) graphs with
    | some (gn, outn) => (some gn, some outn)
    | none => (none, none)

/-- Modelled from the spec's words for claim C2 (spec §4.4): the same
selection but scanning in priority-list order FIRST and graph-declaration
order SECOND, with the same fallback.  Used only to compare against the
source-faithful `find_best_graph`. -/
def find_best_graph_claimOrder (graphs : List GraphInfo) :
    Option String × Option String :=
  match findFirstSome
      (fun p =>
        findFirstSome
          (fun g => (findFirst (matchesPriority p) g.outputs).map
            fun o => (g.name, o.name)) graphs)
      priority_outputs with
  | some (gn, outn) => (some gn, some outn)
  | none =>
    match findFirstSome
        (fun g =>
          match g.outputs with
          | [] => none
          | o :: _ => some (g.name, o.name)) graphs with
    | some (gn, outn) => (some gn, some outn)
    | none => (none, none)

/-! ## `cook_sbs` (renderer.py lines 225-277)

World inputs: whether `sbscooker` was found, whether the input `.sbs`
file exists, the computed `.sbsar` path, the `subprocess.run` outcome and
whether the expected `.sbsar` exists afterwards.  `outputPathGiven`
distinguishes the branch at lines 241-246 that creates a fresh
`sat_cook_` temporary directory. -/

/-- The `(success, sbsar_path, error)` tuple returned by `cook_sbs`. -/
structure CookResult where
  success : Bool
  sbsar_path : String
  error : Option String
deriving DecidableEq, Repr

/-- What happened to a temporary directory during an operation. -/
structure TempDirFate where
  created : Bool
  deleted : Bool
deriving DecidableEq, Repr

/-- Result of `cook_sbs` together with the fate of the `sat_cook_`
temporary output directory it may create. -/
structure CookEffects where
  result : CookResult
  tempDir : TempDirFate
deriving DecidableEq, Repr

/-- `ThumbnailRenderer.cook_sbs`, with its temporary-directory effect.
The temp directory is created (line 242) only after the tool and input
checks pass and only when no output path was given; `cook_sbs` contains
no deletion of it on any path, so `deleted` is `false` throughout. -/
def cook_sbs_effects (cookerFound sbsExists outputPathGiven : Bool)
    (sbsar_path : String) (run : RunResult) (existsAfter : Bool) :
    CookEffects :=
  if cookerFound = false then
    ⟨⟨false, "", some "sbscooker not found. Check SAT installation path."⟩,
      ⟨false, false⟩⟩
  else if sbsExists = false then
    ⟨⟨false, "", some "SBS file not found"⟩, ⟨false, false⟩⟩
  else
    let created := outputPathGiven = false
    match run with
    | .completed rc _ stderr =>
      if rc = 0 then
        if existsAfter then ⟨⟨true, sbsar_path, none⟩, ⟨created, false⟩⟩
        else
          ⟨⟨false, "", some ("SBSAR file not created: " ++ sbsar_path)⟩,
            ⟨created, false⟩⟩
      else
        ⟨⟨false, "", some ("sbscooker failed: " ++ stderr)⟩,
          ⟨created, false⟩⟩
    | .timedOut msg =>
      ⟨⟨false, "", some ("Cooking failed: " ++ msg)⟩, ⟨created, false⟩⟩
    | .raised msg =>
      ⟨⟨false, "", some ("Cooking failed: " ++ msg)⟩, ⟨created, false⟩⟩

/-- `cook_sbs` proper: just the returned tuple. -/
def cook_sbs (cookerFound sbsExists outputPathGiven : Bool)
    (sbsar_path : String) (run : RunResult) (existsAfter : Bool) :
    CookResult :=
  (cook_sbs_effects cookerFound sbsExists outputPathGiven sbsar_path run
      existsAfter).result

/-! ## Resolution → base-2 exponent encoding

Flat path (`render`, renderer.py line 485):
`log2_res = max(5, min(13, int(math.log2(resolution))))`.
Composite path (`_render_material_ball`, lines 334-336):
`resolution = max(256, min(2048, resolution)); int(math.log2(resolution))`.
For a positive integer `r`, `int(math.log2(r))` is `⌊log₂ r⌋ = Nat.log 2 r`
(binary64 `log2` is exact on powers of two and cannot round a
non-power-of-two in range up to an integer). -/

/-- Flat-render exponent encoding (renderer.py line 485). -/
def log2_res (resolution : Nat) : Nat :=
  max 5 (min 13 (Nat.log 2 resolution))

/-- Pixel clamp of the composite path (renderer.py line 335). -/
def mb_clamped (resolution : Nat) : Nat :=
  max 256 (min 2048 resolution)

/-- Composite-path exponent encoding (renderer.py line 336). -/
def map_res_log2 (resolution : Nat) : Nat :=
  Nat.log 2 (mb_clamped resolution)

/-! ## Temporary-directory lifecycle of the render pipeline

`_render_material_ball` (renderer.py lines 299-409) creates the
`sat_mb_maps_` scratch directory right after the material-ball check and
wraps everything else in `try ... finally shutil.rmtree(temp_dir,
ignore_errors=True)`.  `render` (lines 447-519) calls `cook_sbs` for
`.sbs` inputs, returns early (no cleanup) when cooking fails, and
otherwise deletes the cooked `.sbsar` and its directory in a `finally`
block, on every exit of the body. -/

/-- How the body of a `try` block ended: normal completion or a raised
exception.  A `finally` clause runs in both cases. -/
inductive BodyOutcome where
  | norm
  | raised
deriving DecidableEq, Repr

/-- Fate of the `sat_mb_maps_` scratch directory of
`_render_material_ball`: not created when the material-ball package is
missing (early return at line 290); otherwise created at line 299 and
removed by the `finally` at line 409 regardless of how the body ended. -/
def mb_scratch_fate (ballPresent : Bool) (body : BodyOutcome) : TempDirFate :=
  if ballPresent = false then ⟨false, false⟩
  else
    match body with
    | .norm => ⟨true, true⟩
    | .raised => ⟨true, true⟩

/-- Fate of the `sat_cook_` directory created by `cook_sbs`, as seen
across a whole `render` call (renderer.py lines 424-519): for `.sbs`
inputs `render` calls `cook_sbs` with no output path; if cooking fails it
returns at lines 450-456, before the `try`, deleting nothing; if cooking
succeeds, the `finally` at lines 514-519 removes the directory whatever
the body does. -/
def render_cook_dir_fate (sbsrenderFound fileExists isSbs : Bool)
    (cookerFound cookSbsExists : Bool) (sbsar_path : String)
    (run : RunResult) (existsAfter : Bool) (body : BodyOutcome) :
    TempDirFate :=
  if sbsrenderFound = false then ⟨false, false⟩
  else if fileExists = false then ⟨false, false⟩
  else if isSbs then
    let ce := cook_sbs_effects cookerFound cookSbsExists false sbsar_path
      run existsAfter
    if ce.result.success then
      match body with
      | .norm => ⟨ce.tempDir.created, true⟩
      | .raised => ⟨ce.tempDir.created, true⟩
    else ⟨ce.tempDir.created, false⟩
  else ⟨false, false⟩

/-! ## Success decision of the flat render and of `bake`

`render` flat path (renderer.py lines 499-513): after the process
completes, success iff the exit code is zero AND the exact expected file
`stem.format` exists; otherwise a failure carrying stderr.  There is no
glob fallback in `render`.

`bake` per-channel collection (baker.py lines 241-267): on exit code zero
it takes the exact expected file, else whatever the glob
`stem_channel*.format` finds; on nonzero exit it records an error unless
stderr contains `not found`; timeouts and exceptions record errors. -/

/-- The flat-render result construction (renderer.py lines 500-513),
given the process exit code, stderr, and whether the exact expected
output file exists. -/
def flat_render_tail (rc : Int) (stderr : String) (graph_name : Option String)
    (resolution : Nat) (actual_output : String) (actualExists : Bool) :
    RenderResult :=
  if rc = 0 ∧ actualExists then
    ⟨true, actual_output, pyOr graph_name "default", (resolution, resolution),
      none⟩
  else
    ⟨false, "", pyOr graph_name "", (resolution, resolution),
      some ("Flat render failed: " ++ stderr)⟩

/-- Modelled from the spec's words for claim C8 (spec §4.6): the claimed
two-step output lookup — the exact expected file, else any file in the
output directory matching the format extension (glob fallback). -/
def two_step_found (exactExists : Bool) (globMatches : List String) : Bool :=
  exactExists || !globMatches.isEmpty

/-- One iteration of `bake`'s channel loop (baker.py lines 241-267):
returns the files collected and the errors recorded for this channel. -/
def bake_channel (run : RunResult) (channel : String) (output_file : String)
    (exactExists : Bool) (globMatches : List String) :
    List String × List String :=
  match run with
  | .completed rc _ stderr =>
    if rc = 0 then
      if exactExists then ([output_file], [])
      else (globMatches, [])
    else
      if containsSub (lowerStr stderr) "not found" then ([], [])
      else ([], [channel ++ ": " ++ stderr])
  | .timedOut _ => ([], [channel ++ ": Render timed out"])
  | .raised msg => ([], [channel ++ ": " ++ msg])

/-! ## The `subprocess.run` call sites of the renderer

Each call site is embedded as the argument list it builds plus the
`timeout=` keyword it passes (`none` when the call passes no timeout). -/

/-- One `subprocess.run` invocation: command line and timeout argument. -/
structure SubprocessCall where
  cmd : List String
  timeoutSeconds : Option Nat
deriving DecidableEq, Repr

/-- The `sbsrender info` call of `get_graph_info` (renderer.py lines
126-138): `timeout=30`. -/
def info_call (sbsrender_path sbsar_path : String) : SubprocessCall :=
  ⟨[sbsrender_path, "info", "--input", sbsar_path], some 30⟩

/-- The `sbscooker` call of `cook_sbs` (renderer.py lines 249-264):
`timeout=300`. -/
def cook_call (sbscooker_path sbs_file out_parent out_name : String) :
    SubprocessCall :=
  ⟨[sbscooker_path, "--inputs", sbs_file, "--output-path", out_parent,
    "--output-name", out_name], some 300⟩

/-- A per-channel map render of `_render_material_ball` (renderer.py
lines 353-363): `subprocess.run(cmd, capture_output=True, check=False)`
with NO timeout argument. -/
def mb_map_call (sbsrender_path sbsar_path graph_name target_output
    temp_dir map_type : String) (res_log2 : Nat) : SubprocessCall :=
  ⟨[sbsrender_path, "render", "--input", sbsar_path,
    "--input-graph", graph_name, "--input-graph-output", target_output,
    "--output-path", temp_dir, "--output-name", map_type,
    "--output-format", "png",
    "--set-value", s!"$outputsize@{res_log2},{res_log2}"], none⟩

/-- The final composite render of `_render_material_ball` (renderer.py
lines 375-388): `subprocess.run(cmd, capture_output=True, text=True)`
with NO timeout argument; each rendered map adds a `--set-entry` pair. -/
def mb_final_call (sbsrender_path material_ball_sbsar out_parent out_stem
    fmt : String) (res_log2 : Nat) (rendered_maps : List (String × String)) :
    SubprocessCall :=
  ⟨[sbsrender_path, "render", "--input", material_ball_sbsar,
    "--output-path", out_parent, "--output-name", out_stem,
    "--output-format", fmt,
    "--set-value", s!"$outputsize@{res_log2},{res_log2}"] ++
    (rendered_maps.map fun m =>
      ["--set-entry", m.1 ++ "@" ++ m.2]).flatten, none⟩

/-- The flat render call of `render` (renderer.py lines 487-499):
`subprocess.run(cmd, capture_output=True, text=True)` with NO timeout
argument. -/
def render_flat_call (sbsrender_path render_file out_parent out_stem
    fmt : String) (res_log2 : Nat) (graph_name : Option String)
    (output_name : String) : SubprocessCall :=
  ⟨[sbsrender_path, "render", "--input", render_file,
    "--output-path", out_parent, "--output-name", out_stem,
    "--output-format", fmt,
    "--set-value", s!"$outputsize@{res_log2},{res_log2}"] ++
    (match graph_name with
     | some g => ["--input-graph", g]
     | none => []) ++
    ["--input-graph-output", output_name], none⟩

/-! ## Batch processing (`batch.py`)

`process_file` is the unit of work; its observable outcome per file is
either the result dictionary it returned (with its `success`, `file`
and optional `error` keys) or an exception it raised.  Both batch
entry points are folds over the per-file outcomes; for
`process_parallel` the input list order stands for `as_completed`
completion order, and each pair carries the submitted file path used by
the `except` branch. -/

/-- The fields of the dictionary returned by `process_file` that the
batch layer reads: `success`, `file`, and `error` (absent on success). -/
structure PFRes where
  success : Bool
  file : String
  error : Option String
deriving DecidableEq, Repr

/-- Observable outcome of one `process_file` call: a returned result
dictionary, or a raised exception with its message. -/
inductive PFOutcome where
  | ok (res : PFRes)
  | exn (msg : String)
deriving DecidableEq, Repr

/-- Does this outcome consist of a raised exception? -/
def PFOutcome.isExn : PFOutcome → Bool
  | .ok _ => false
  | .exn _ => true

/-- `BatchResult` (batch.py lines 17-24). -/
structure BatchResult where
  total : Nat
  success : Nat
  failed : Nat
  results : List PFRes
  errors : List (String × String)
deriving DecidableEq, Repr

/-- The error entry built at batch.py lines 214-217 / 274-277:
`{'file': result['file'], 'error': result.get('error', 'Unknown error')}`. -/
def valueErrorEntry (r : PFRes) : String × String :=
  (r.file, r.error.getD "Unknown error")

/-- The loop of `process_directory` (batch.py lines 196-217): sequential,
with NO try/except around `process_file` — a raised exception propagates
and aborts the loop.  Carries the counters and both lists. -/
def pdGo : List (String × PFOutcome) → Nat → Nat → List PFRes →
    List (String × String) →
    Except String (Nat × Nat × List PFRes × List (String × String))
  | [], s, f, rs, es => .ok (s, f, rs, es)
  | (_, .exn m) :: _, _, _, _, _ => .error m
  | (_, .ok r) :: rest, s, f, rs, es =>
    if r.success then pdGo rest (s + 1) f (rs ++ [r]) es
    else pdGo rest s (f + 1) rs (es ++ [valueErrorEntry r])

/-- `BatchProcessor.process_directory` (batch.py lines 152-225) over the
found files paired with their `process_file` outcomes.  `total` is the
number of files (`len(files)`); an uncaught exception yields `.error`. -/
def process_directory (files : List (String × PFOutcome)) :
    Except String BatchResult :=
  (pdGo files 0 0 [] []).map fun x =>
    ⟨files.length, x.1, x.2.1, x.2.2.1, x.2.2.2⟩

/-- The collection loop of `process_parallel` (batch.py lines 268-282):
`future.result()` is wrapped in try/except, so an exception becomes an
error entry keyed by the submitted file path. -/
def ppGo : List (String × PFOutcome) → List PFRes →
    List (String × String) → List PFRes × List (String × String)
  | [], rs, es => (rs, es)
  | (_, .ok r) :: rest, rs, es =>
    if r.success then ppGo rest (rs ++ [r]) es
    else ppGo rest rs (es ++ [valueErrorEntry r])
  | (f, .exn m) :: rest, rs, es => ppGo rest rs (es ++ [(f, m)])

/-- `BatchProcessor.process_parallel` (batch.py lines 227-290):
`total = len(files)`, `success = len(results)`, `failed = len(errors)`. -/
def process_parallel (files : List (String × PFOutcome)) : BatchResult :=
  let x := ppGo files [] []
  ⟨files.length, x.1.length, x.2.length, x.1, x.2⟩

/-- Predicate used to state the batch recording properties: the result
entry one file outcome should contribute to `results`. -/
def okEntry (p : String × PFOutcome) : Option PFRes :=
  match p.2 with
  | .ok r => if r.success then some r else none
  | .exn _ => none

/-- Predicate used to state the batch recording properties: the error
entry one file outcome should contribute to `errors` under
`process_parallel` (exceptions keyed by the submitted file path). -/
def errEntryPar (p : String × PFOutcome) : Option (String × String) :=
  match p.2 with
  | .ok r => if r.success then none else some (valueErrorEntry r)
  | .exn m => some (p.1, m)

/-- Predicate used to state the batch recording properties: the error
entry one file outcome contributes to `errors` under `process_directory`
(exceptions contribute none — they abort instead). -/
def errEntryDir (p : String × PFOutcome) : Option (String × String) :=
  match p.2 with
  | .ok r => if r.success then none else some (valueErrorEntry r)
  | .exn _ => none

/-- Did the computation complete without an uncaught exception? -/
def exceptOk {ε α : Type} : Except ε α → Bool
  | .ok _ => true
  | .error _ => false

/-! ## `CallbackManager` async queueing (callback.py)

The state relevant to claim C10: the optional async queue and whether the
worker thread exists.  Queue items are `(callback_type, data)` pairs;
the `(None, None)` stop sentinel is modelled as `none`.  The payload
type is abstract. -/

/-- The async-dispatch state of a `CallbackManager`. -/
structure CMAsyncState (α : Type) where
  asyncQueue : Option (List (Option (Nat × α)))
  asyncThread : Bool
deriving DecidableEq, Repr

/-- `CallbackManager.__init__` (callback.py lines 46-55): both `None`. -/
def cmInit (α : Type) : CMAsyncState α :=
  ⟨none, false⟩

/-- `queue_async` (callback.py lines 159-162): enqueue only when
`self._async_queue is not None`; otherwise do nothing at all. -/
def queue_async (st : CMAsyncState α) (callback_type : Nat) (data : α) :
    CMAsyncState α :=
  match st.asyncQueue with
  | none => st
  | some q => { st with asyncQueue := some (q ++ [some (callback_type, data)]) }

/-- `start_async_processing` (callback.py lines 139-146): no-op when the
thread already exists; else create a fresh queue and start the thread. -/
def start_async_processing (st : CMAsyncState α) : CMAsyncState α :=
  if st.asyncThread then st
  else ⟨some [], true⟩

/-- `stop_async_processing` (callback.py lines 164-171): push the stop
sentinel when a queue exists; then, when the thread exists, join it and
set both thread and queue to `None`. -/
def stop_async_processing (st : CMAsyncState α) : CMAsyncState α :=
  let st1 : CMAsyncState α :=
    match st.asyncQueue with
    | none => st
    | some q => { st with asyncQueue := some (q ++ [none]) }
  if st1.asyncThread then ⟨none, false⟩
  else st1

/-! ## Shared helper lemmas -/

/-- A first-hit search skips a block that yields no hit. -/
theorem findFirstSome_append_none {α β : Type} (f : α → Option β)
    (pre l : List α) (h : ∀ a ∈ pre, f a = none) :
    findFirstSome f (pre ++ l) = findFirstSome f l := by
  induction pre with
  | nil => rfl
  | cons a pre ih =>
    have ha : f a = none := h a (by simp)
    simp only [List.cons_append, findFirstSome, ha]
    exact ih fun a' ha' => h a' (by simp [ha'])

/-! ## Claim C1 -/

/-- Claim C1: `cook_sbs` returns `success = true` iff the `sbscooker`
process ran and exited with code zero AND the expected `.sbsar` package
file exists on disk afterwards (in particular, exit code zero with the
package absent is a failure). -/
theorem cook_sbs_success_iff (cookerFound sbsExists outputPathGiven : Bool)
    (sbsar_path : String) (run : RunResult) (existsAfter : Bool) :
    (cook_sbs cookerFound sbsExists outputPathGiven sbsar_path run
        existsAfter).success = true ↔
      (cookerFound = true ∧ sbsExists = true ∧ run.exitCode = some 0 ∧
        existsAfter = true) := by
  cases cookerFound <;> cases sbsExists <;> cases existsAfter <;> cases run <;>
    simp [cook_sbs, cook_sbs_effects, RunResult.exitCode] <;>
    split <;> simp_all

/-! ## Claim C9 -/

/-- Counterexample to claim C9: none of the three renderer invocations of
the render paths (flat render, per-channel map render, final composite
render) passes any timeout to `subprocess.run` — shown here at a concrete
call, refuting the claim that every such invocation carries a fixed
finite timeout. -/
theorem render_no_timeout_counterexample :
    (render_flat_call "sbsrender" "f.sbsar" "/out" "thumb" "png" 9 none
        "basecolor").timeoutSeconds = none ∧
    (mb_map_call "sbsrender" "f.sbsar" "G" "basecolor" "/tmp/maps"
        "basecolor" 9).timeoutSeconds = none ∧
    (mb_final_call "sbsrender" "mb.sbsar" "/out" "thumb" "png" 9
        []).timeoutSeconds = none :=
  ⟨rfl, rfl, rfl⟩

/-- Claim C9 (amended): the flat render of `render` and both render
invocations of `_render_material_ball` pass NO timeout at all — a hung
renderer can block the calling worker indefinitely; only the
`sbsrender info` query (30 s) and `sbscooker` compilation (300 s) carry
fixed timeouts. -/
theorem subprocess_timeouts (a b c d e f : String) (n : Nat)
    (go : Option String) (maps : List (String × String)) :
    (render_flat_call a b c d e n go f).timeoutSeconds = none ∧
    (mb_map_call a b c d e f n).timeoutSeconds = none ∧
    (mb_final_call a b c d e n maps).timeoutSeconds = none ∧
    (info_call a b).timeoutSeconds = some 30 ∧
    (cook_call a b c d).timeoutSeconds = some 300 :=
  ⟨rfl, rfl, rfl, rfl, rfl⟩

/-! ## Claim C10 -/

/-- Claim C10: when asynchronous processing is not running
(`_async_queue is None`, which holds in the initial state and again after
`stop_async_processing`), `queue_async` is a silent no-op: the state is
returned unchanged, so the event is discarded, nothing is ever handled
for it, and no error is reported. -/
theorem queue_async_noop {α : Type} (st : CMAsyncState α)
    (callback_type : Nat) (data : α) (h : st.asyncQueue = none) :
    queue_async st callback_type data = st ∧
    (cmInit α).asyncQueue = none ∧
    ∀ st' : CMAsyncState α,
      (stop_async_processing (start_async_processing st')).asyncQueue =
        none := by
  refine ⟨?_, rfl, ?_⟩
  · simp [queue_async, h]
  · intro st'
    rcases st' with ⟨q, t⟩
    cases t <;> cases q <;> simp [start_async_processing,
      stop_async_processing]

/-- Witness for C10 at a concrete state: queueing into a fresh (never
started) manager changes nothing. -/
theorem queue_async_noop_witness :
    queue_async (cmInit Nat) 0 5 = cmInit Nat ∧
    (cmInit Nat).asyncQueue = none ∧
    ∀ st' : CMAsyncState Nat,
      (stop_async_processing (start_async_processing st')).asyncQueue =
        none :=
  queue_async_noop (cmInit Nat) 0 5 rfl

/-! ## Claim C8 -/

/-- Counterexample to claim C8: with exit code zero, the exact expected
file absent, but a file of the expected extension present in the output
directory (so the claimed two-step lookup finds a file), the flat render
of `ThumbnailRenderer.render` still reports failure — it performs no
glob fallback. -/
theorem glob_fallback_counterexample :
    (flat_render_tail 0 "" none 512 "/out/t.png" false).success = false ∧
    two_step_found false ["/out/other.png"] = true := by
  exact ⟨rfl, rfl⟩

/-- Claim C8 (amended): the flat render of `ThumbnailRenderer.render`
succeeds iff the exit code is zero and the exact expected output file
exists — no glob fallback; the two-step lookup (exact file, then glob)
exists only in `Baker.bake`, whose per-channel collection is nonempty iff
the exit code is zero and the exact file exists or the glob matches
something. -/
theorem output_lookup_success (rc : Int) (stderr : String)
    (graph_name : Option String) (resolution : Nat) (actual_output : String)
    (exactExists : Bool) (run : RunResult) (channel output_file : String)
    (globMatches : List String) :
    ((flat_render_tail rc stderr graph_name resolution actual_output
        exactExists).success = true ↔ (rc = 0 ∧ exactExists = true)) ∧
    ((bake_channel run channel output_file exactExists globMatches).1 ≠ [] ↔
      (run.exitCode = some 0 ∧
        (exactExists = true ∨ globMatches ≠ []))) := by
  constructor
  · cases exactExists <;> simp [flat_render_tail] <;> split <;> simp_all
  · cases run with
    | completed rc' out err =>
      by_cases h0 : rc' = 0
      · cases exactExists <;>
          simp [bake_channel, h0, RunResult.exitCode]
      · cases exactExists <;>
          simp [bake_channel, h0, RunResult.exitCode] <;> split <;> simp_all
    | timedOut m => simp [bake_channel, RunResult.exitCode]
    | raised m => simp [bake_channel, RunResult.exitCode]

/-- Witness for C8 at concrete inputs: a bake channel with exit code zero,
exact file absent and one glob match collects a file. -/
theorem output_lookup_success_witness :
    (bake_channel (.completed 0 "" "") "basecolor" "/o/f.png" false
        ["/o/g.png"]).1 ≠ [] :=
  (output_lookup_success 0 "" none 512 "/o/t.png" false
      (.completed 0 "" "") "basecolor" "/o/f.png" ["/o/g.png"]).2.mpr
    ⟨rfl, Or.inr (by decide)⟩

/-! ## Claim C2 -/

/-- Counterexample to claim C2: graph `G1` (declared first) carries only
an `albedo` output — last in the priority family — while graph `G2`
carries a `basecolor` output — first priority.  The code returns `G1`'s
lower-priority match: the scan is graph-declaration order FIRST, so a
lower-priority match in an earlier graph beats a higher-priority match in
a later graph, contradicting the claimed priority-first order (shown by
the spec-order selector `find_best_graph_claimOrder` picking `G2`). -/
theorem find_best_graph_order_counterexample :
    find_best_graph
        [⟨"pkg://G1", "G1", [], [⟨"albedo_out", "albedo"⟩]⟩,
         ⟨"pkg://G2", "G2", [], [⟨"color_out", "basecolor"⟩]⟩] =
      (some "G1", some "albedo_out") ∧
    find_best_graph_claimOrder
        [⟨"pkg://G1", "G1", [], [⟨"albedo_out", "albedo"⟩]⟩,
         ⟨"pkg://G2", "G2", [], [⟨"color_out", "basecolor"⟩]⟩] =
      (some "G2", some "color_out") := by
  decide

/-- Claim C2 (amended): `find_best_graph` scans graphs in declaration
order first and the priority list second: the first graph (in declaration
order) with any priority-matching output wins, contributing its own
highest-priority match, regardless of what later graphs contain. -/
theorem find_best_graph_graph_major (pre rest : List GraphInfo)
    (g : GraphInfo) (gn outn : String)
    (hpre : ∀ g' ∈ pre, graphPriorityMatch g' = none)
    (hg : graphPriorityMatch g = some (gn, outn)) :
    find_best_graph (pre ++ g :: rest) = (some gn, some outn) := by
  unfold find_best_graph
  rw [findFirstSome_append_none graphPriorityMatch pre (g :: rest) hpre]
  simp [findFirstSome, hg]

/-- Witness for C2 at concrete inputs: with an output-less graph first,
the second graph's own priority-first match is returned whatever follows. -/
theorem find_best_graph_graph_major_witness :
    find_best_graph
        ([⟨"pkg://G0", "G0", [], []⟩] ++
          ⟨"pkg://G1", "G1", [], [⟨"n", "roughness"⟩, ⟨"d", "diffuse"⟩]⟩ ::
            [⟨"pkg://G2", "G2", [], [⟨"c", "basecolor"⟩]⟩]) =
      (some "G1", some "d") :=
  find_best_graph_graph_major [⟨"pkg://G0", "G0", [], []⟩]
    [⟨"pkg://G2", "G2", [], [⟨"c", "basecolor"⟩]⟩]
    ⟨"pkg://G1", "G1", [], [⟨"n", "roughness"⟩, ⟨"d", "diffuse"⟩]⟩
    "G1" "d" (by decide) (by decide)

/-! ## Claim C3 -/

/-- `⌊log₂ 256⌋ = 8`. -/
theorem log2_256 : Nat.log 2 256 = 8 :=
  Nat.log_eq_of_pow_le_of_lt_pow (by norm_num) (by norm_num)

/-- `⌊log₂ 2048⌋ = 11`. -/
theorem log2_2048 : Nat.log 2 2048 = 11 :=
  Nat.log_eq_of_pow_le_of_lt_pow (by norm_num) (by norm_num)

/-- `⌊log₂ 32⌋ = 5`. -/
theorem log2_32 : Nat.log 2 32 = 5 :=
  Nat.log_eq_of_pow_le_of_lt_pow (by norm_num) (by norm_num)

/-- `⌊log₂ 8192⌋ = 13`. -/
theorem log2_8192 : Nat.log 2 8192 = 13 :=
  Nat.log_eq_of_pow_le_of_lt_pow (by norm_num) (by norm_num)

/-- Counterexample to claim C3: in the composite (material-ball) render
path, a requested resolution of 32 pixels yields base-2 exponent 8, not
the claimed 5 — that path clamps the pixel count to 256..2048 instead of
clamping the exponent to 5..13. -/
theorem map_res_log2_counterexample :
    map_res_log2 32 = 8 ∧ map_res_log2 32 ≠ 5 := by
  have h : map_res_log2 32 = Nat.log 2 256 := by
    have : mb_clamped 32 = 256 := by decide
    simp [map_res_log2, this]
  rw [h, log2_256]
  exact ⟨rfl, by decide⟩

/-- Claim C3 (amended): the flat render path encodes the requested pixel
resolution as `max 5 (min 13 ⌊log₂ r⌋)` — clamped to exponents 5..13,
with 32 ↦ 5, 8192 ↦ 13, values below 32 to 5, values at or above 8192 to
13, monotonically; the composite material-ball path instead clamps the
pixel count to 256..2048 before taking the exponent, so its exponents lie
in 8..11, with values at or below 256 ↦ 8 and at or above 2048 ↦ 11, also
monotonically.  Both paths clamp; neither rejects. -/
theorem resolution_exponent_clamp (r s : Nat) (h1 : 1 ≤ r) (hrs : r ≤ s) :
    (5 ≤ log2_res r ∧ log2_res r ≤ 13) ∧
    (r < 32 → log2_res r = 5) ∧
    (8192 ≤ r → log2_res r = 13) ∧
    log2_res 32 = 5 ∧ log2_res 8192 = 13 ∧
    log2_res r ≤ log2_res s ∧
    (8 ≤ map_res_log2 r ∧ map_res_log2 r ≤ 11) ∧
    (r ≤ 256 → map_res_log2 r = 8) ∧
    (2048 ≤ r → map_res_log2 r = 11) ∧
    map_res_log2 r ≤ map_res_log2 s := by
  have hmono : Nat.log 2 r ≤ Nat.log 2 s := Nat.log_mono_right hrs
  have hclamp_mono : mb_clamped r ≤ mb_clamped s := by
    unfold mb_clamped; omega
  have hclamp_lo : 256 ≤ mb_clamped r := by unfold mb_clamped; omega
  have hclamp_hi : mb_clamped r ≤ 2048 := by unfold mb_clamped; omega
  have hmb_lo : 8 ≤ map_res_log2 r := by
    have h := Nat.log_mono_right (b := 2) hclamp_lo
    rw [log2_256] at h
    exact h
  have hmb_hi : map_res_log2 r ≤ 11 := by
    have h := Nat.log_mono_right (b := 2) hclamp_hi
    rw [log2_2048] at h
    exact h
  refine ⟨?_, ?_, ?_, ?_, ?_, ?_, ⟨hmb_lo, hmb_hi⟩, ?_, ?_, ?_⟩
  · unfold log2_res; omega
  · intro hr
    have hL : Nat.log 2 r < 5 :=
      Nat.log_lt_of_lt_pow (by omega) (by norm_num; omega)
    unfold log2_res; omega
  · intro hr
    have hL : 13 ≤ Nat.log 2 r :=
      (Nat.pow_le_iff_le_log (by norm_num) (by omega)).mp
        (by norm_num; omega)
    unfold log2_res; omega
  · simp [log2_res, log2_32]
  · simp [log2_res, log2_8192]
  · unfold log2_res; omega
  · intro hr
    have hc : mb_clamped r = 256 := by unfold mb_clamped; omega
    rw [map_res_log2, hc]; exact log2_256
  · intro hr
    have hc : mb_clamped r = 2048 := by unfold mb_clamped; omega
    rw [map_res_log2, hc]; exact log2_2048
  · exact Nat.log_mono_right hclamp_mono

/-! ## Claim C4 -/

/-- `cook_sbs` deletes its temporary directory on no path whatsoever. -/
theorem cook_tempDir_deleted (c s o : Bool) (p : String) (run : RunResult)
    (ex : Bool) :
    (cook_sbs_effects c s o p run ex).tempDir.deleted = false := by
  cases c <;> cases s <;> cases ex <;> cases run <;>
    simp [cook_sbs_effects] <;> split <;> rfl

/-- `cook_sbs` creates its temporary directory exactly when both guard
checks pass and no output path was supplied. -/
theorem cook_tempDir_created (c s o : Bool) (p : String) (run : RunResult)
    (ex : Bool) :
    (cook_sbs_effects c s o p run ex).tempDir.created = (c && s && !o) := by
  cases c <;> cases s <;> cases o <;> cases ex <;> cases run <;>
    simp [cook_sbs_effects] <;> split <;> rfl

/-- Counterexample to claim C4: a fully successful `cook_sbs` call with
no output path creates the `sat_cook_` temporary directory and returns
without deleting it — the directory is NOT deleted on every exit path
before the creating operation returns (here not even on the success
path, let alone the failure paths). -/
theorem cook_temp_dir_counterexample :
    (cook_sbs_effects true true false "p.sbsar" (.completed 0 "" "")
        true).result.success = true ∧
    (cook_sbs_effects true true false "p.sbsar" (.completed 0 "" "")
        true).tempDir.created = true ∧
    (cook_sbs_effects true true false "p.sbsar" (.completed 0 "" "")
        true).tempDir.deleted = false := by
  decide

/-- Claim C4 (amended): the `sat_mb_maps_` scratch directory of
`_render_material_ball` is indeed deleted on every exit path (success or
exception) before it returns; but the compile output directory of
`cook_sbs` is never deleted by `cook_sbs` itself — ownership passes to
the caller: `render` deletes it in its `finally` block (on every exit of
the body) exactly when the cook succeeded, and when `cook_sbs` creates
the directory and then fails, nothing deletes it at all. -/
theorem temp_dir_lifecycle (cookerFound sbsExists outputPathGiven
    sbsrenderFound fileExists isSbs ballPresent : Bool) (p : String)
    (run : RunResult) (existsAfter : Bool) (body : BodyOutcome) :
    ((mb_scratch_fate ballPresent body).created = true →
      (mb_scratch_fate ballPresent body).deleted = true) ∧
    ((cook_sbs_effects cookerFound sbsExists outputPathGiven p run
        existsAfter).tempDir.deleted = false) ∧
    ((render_cook_dir_fate sbsrenderFound fileExists isSbs cookerFound
        sbsExists p run existsAfter body).deleted = true ↔
      (sbsrenderFound = true ∧ fileExists = true ∧ isSbs = true ∧
        (cook_sbs cookerFound sbsExists false p run existsAfter).success =
          true)) ∧
    (((render_cook_dir_fate sbsrenderFound fileExists isSbs cookerFound
        sbsExists p run existsAfter body).created = true ∧
      (render_cook_dir_fate sbsrenderFound fileExists isSbs cookerFound
        sbsExists p run existsAfter body).deleted = false) ↔
      (sbsrenderFound = true ∧ fileExists = true ∧ isSbs = true ∧
        cookerFound = true ∧ sbsExists = true ∧
        (cook_sbs cookerFound sbsExists false p run existsAfter).success =
          false)) := by
  refine ⟨?_, cook_tempDir_deleted _ _ _ _ _ _, ?_, ?_⟩
  · cases ballPresent <;> cases body <;> simp [mb_scratch_fate]
  · cases sbsrenderFound <;> cases fileExists <;> cases isSbs <;>
      simp [render_cook_dir_fate, cook_sbs]
    by_cases hs : (cook_sbs_effects cookerFound sbsExists false p run
        existsAfter).result.success = true
    · cases body <;> simp [hs]
    · simp only [Bool.not_eq_true] at hs
      cases body <;> simp [hs]
  · cases sbsrenderFound <;> cases fileExists <;> cases isSbs <;>
      simp [render_cook_dir_fate, cook_sbs]
    by_cases hs : (cook_sbs_effects cookerFound sbsExists false p run
        existsAfter).result.success = true
    · cases body <;> simp [hs]
    · simp only [Bool.not_eq_true] at hs
      cases body <;>
        simp [hs, cook_tempDir_created cookerFound sbsExists false p run
          existsAfter]

/-- Witness for C4 at concrete inputs: a present material-ball scratch
directory is deleted even when the body raises. -/
theorem temp_dir_lifecycle_witness :
    (mb_scratch_fate true BodyOutcome.raised).deleted = true :=
  (temp_dir_lifecycle true true false true true true true "p.sbsar"
      (.completed 0 "" "") true BodyOutcome.raised).1 rfl

/-! ## Claim C5 -/

/-- The parse loop yields one graph per declaration line, plus the
carried in-progress graph. -/
theorem parseGo_length (ls : List String) :
    ∀ cur : Option GraphInfo,
      (parseGo ls cur).length = ls.countP isDecl + cur.toList.length := by
  induction ls with
  | nil => intro cur; cases cur <;> simp [parseGo]
  | cons l ls ih =>
    intro cur
    by_cases hd : isDecl l <;> cases cur <;>
      simp [parseGo, hd, ih, List.countP_cons]

/-- Over declaration-free lines, the in-progress graph just accumulates
input/output attachments and is flushed at the end. -/
theorem parseGo_noDecl_some (mid : List String) :
    ∀ g : GraphInfo, (∀ l ∈ mid, isDecl l = false) →
      parseGo mid (some g) = [mid.foldl applyLine g] := by
  induction mid with
  | nil => intro g _; rfl
  | cons m mid ih =>
    intro g h
    have hm : isDecl m = false := h m (by simp)
    simp only [parseGo, hm, Bool.false_eq_true, if_false, List.foldl_cons]
    exact ih (applyLine g m) fun l hl => h l (by simp [hl])

/-- Input/output lines before any graph declaration are ignored. -/
theorem parseGo_noDecl_none (mid rest : List String)
    (h : ∀ l ∈ mid, isDecl l = false) :
    parseGo (mid ++ rest) none = parseGo rest none := by
  induction mid with
  | nil => rfl
  | cons m mid ih =>
    have hm : isDecl m = false := h m (by simp)
    simp only [List.cons_append, parseGo, hm, Bool.false_eq_true, if_false]
    exact ih fun l hl => h l (by simp [hl])

/-- The lines following the last graph declaration attach exactly to that
declaration's graph, which is flushed as the final element. -/
theorem parseGo_last_segment (pre : List String) :
    ∀ (cur : Option GraphInfo) (d : String) (mid : List String),
      isDecl d = true → (∀ l ∈ mid, isDecl l = false) →
      parseGo (pre ++ d :: mid) cur =
        parseGo pre cur ++ [mid.foldl applyLine (newGraph d)] := by
  induction pre with
  | nil =>
    intro cur d mid hd hmid
    cases cur <;>
      simp [parseGo, hd, parseGo_noDecl_some mid _ hmid]
  | cons p pre ih =>
    intro cur d mid hd hmid
    by_cases hp : isDecl p <;> cases cur <;>
      simp [parseGo, hp, ih _ d mid hd hmid]

/-- Claim C5: `_parse_graph_info` returns exactly one `GraphInfo` per
`GRAPH-URL` line; every input/output line attaches to the most recently
declared graph and the last graph is flushed at end of input; the empty
string parses to the empty list; and input/output lines appearing before
any declaration are ignored without error. -/
theorem parse_graph_info_spec :
    (_parse_graph_info "" = []) ∧
    (∀ s : String,
      (_parse_graph_info s).length = (splitlines s).countP isDecl) ∧
    (∀ mid rest : List String, (∀ l ∈ mid, isDecl l = false) →
      parseGo (mid ++ rest) none = parseGo rest none) ∧
    (∀ (pre : List String) (d : String) (mid : List String),
      isDecl d = true → (∀ l ∈ mid, isDecl l = false) →
      parseGo (pre ++ d :: mid) none =
        parseGo pre none ++ [mid.foldl applyLine (newGraph d)]) := by
  refine ⟨rfl, ?_, parseGo_noDecl_none, ?_⟩
  · intro s
    simp [_parse_graph_info, parseGo_length]
  · intro pre d mid hd hmid
    exact parseGo_last_segment pre none d mid hd hmid

/-- Witness for C5 at concrete lines: with one noise line, one
declaration and one output line, the output attaches to the declared
graph, which is flushed as the last element. -/
theorem parse_graph_info_spec_witness :
    parseGo (["noise line"] ++ "GRAPH-URL pkg://G" ::
        ["OUTPUT out basecolor"]) none =
      parseGo ["noise line"] none ++
        [["OUTPUT out basecolor"].foldl applyLine
          (newGraph "GRAPH-URL pkg://G")] :=
  parse_graph_info_spec.2.2.2 ["noise line"] "GRAPH-URL pkg://G"
    ["OUTPUT out basecolor"] (by decide) (by decide)

/-! ## Claims C6 and C7 -/

/-- Full characterization of the `process_parallel` collection loop:
every completed outcome contributes its entry to exactly one of the two
lists. -/
theorem ppGo_spec (files : List (String × PFOutcome)) :
    ∀ rs es, ppGo files rs es =
      (rs ++ files.filterMap okEntry, es ++ files.filterMap errEntryPar) := by
  induction files with
  | nil => intro rs es; simp [ppGo]
  | cons p files ih =>
    intro rs es
    rcases p with ⟨f, o⟩
    cases o with
    | ok r =>
      by_cases hr : r.success <;>
        simp [ppGo, hr, ih, okEntry, errEntryPar]
    | exn m => simp [ppGo, ih, okEntry, errEntryPar]

/-- Each outcome contributes to exactly one of `results`/`errors` in
`process_parallel`. -/
theorem par_counts_split (files : List (String × PFOutcome)) :
    (files.filterMap okEntry).length +
      (files.filterMap errEntryPar).length = files.length := by
  induction files with
  | nil => rfl
  | cons p files ih =>
    rcases p with ⟨f, o⟩
    cases o with
    | ok r =>
      by_cases hr : r.success <;>
        simp [okEntry, errEntryPar, hr, List.filterMap_cons] <;> omega
    | exn m => simp [okEntry, errEntryPar, List.filterMap_cons]; omega

/-- The `process_directory` loop completes without aborting exactly when
no per-file outcome raised. -/
theorem pdGo_ok_iff (files : List (String × PFOutcome)) :
    ∀ s f rs es, exceptOk (pdGo files s f rs es) =
      files.all fun p => !p.2.isExn := by
  induction files with
  | nil => intro s f rs es; simp [pdGo, exceptOk]
  | cons p files ih =>
    intro s f rs es
    rcases p with ⟨fp, o⟩
    cases o with
    | ok r =>
      by_cases hr : r.success <;>
        simp [pdGo, hr, ih, PFOutcome.isExn]
    | exn m => simp [pdGo, exceptOk, PFOutcome.isExn]

/-- When the `process_directory` loop completes, its counters absorb one
unit per processed file. -/
theorem pdGo_ok_counts (files : List (String × PFOutcome)) :
    ∀ s f rs es x, pdGo files s f rs es = .ok x →
      x.1 + x.2.1 = s + f + files.length := by
  induction files with
  | nil =>
    intro s f rs es x h
    simp [pdGo] at h
    subst h
    simp
  | cons p files ih =>
    intro s f rs es x h
    rcases p with ⟨fp, o⟩
    cases o with
    | ok r =>
      by_cases hr : r.success
      · simp only [pdGo, hr, if_true] at h
        have := ih _ _ _ _ _ h
        simp only [List.length_cons]
        omega
      · simp only [pdGo, hr, Bool.false_eq_true, if_false] at h
        have := ih _ _ _ _ _ h
        simp only [List.length_cons]
        omega
    | exn m => simp [pdGo] at h

/-- When the `process_directory` loop completes, the recorded error list
is exactly the per-file value failures, in order. -/
theorem pdGo_ok_errors (files : List (String × PFOutcome)) :
    ∀ s f rs es x, pdGo files s f rs es = .ok x →
      x.2.2.2 = es ++ files.filterMap errEntryDir := by
  induction files with
  | nil =>
    intro s f rs es x h
    simp [pdGo] at h
    subst h
    simp
  | cons p files ih =>
    intro s f rs es x h
    rcases p with ⟨fp, o⟩
    cases o with
    | ok r =>
      by_cases hr : r.success
      · simp only [pdGo, hr, if_true] at h
        simpa [errEntryDir, hr, List.filterMap_cons] using ih _ _ _ _ _ h
      · simp only [pdGo, hr, Bool.false_eq_true, if_false] at h
        simpa [errEntryDir, hr, List.filterMap_cons] using ih _ _ _ _ _ h
    | exn m => simp [pdGo] at h

/-- Counterexample to claim C6: a single file whose processing raises an
internal exception makes `process_directory` abort with that exception
uncaught — nothing is recorded and the batch does not complete. -/
theorem process_directory_exn_counterexample :
    process_directory [("f.sbs", PFOutcome.exn "boom")] =
      Except.error "boom" ∧
    exceptOk (process_directory [("f.sbs", PFOutcome.exn "boom")]) =
      false :=
  ⟨rfl, rfl⟩

/-- Claim C6 (amended): `process_parallel` catches every per-file outcome
— value failures and raised exceptions alike — recording each as an
`errors` entry counted in `failed`, and always completes; but
`process_directory` has no such protection: it completes exactly when no
per-file processing raised, and an exception aborts the whole batch (only
value failures are recorded in its `errors`). -/
theorem batch_error_recording (files : List (String × PFOutcome)) :
    (process_parallel files).results = files.filterMap okEntry ∧
    (process_parallel files).errors = files.filterMap errEntryPar ∧
    (process_parallel files).failed =
      (files.filterMap errEntryPar).length ∧
    exceptOk (process_directory files) =
      (files.all fun p => !p.2.isExn) ∧
    (∀ br : BatchResult, process_directory files = Except.ok br →
      br.errors = files.filterMap errEntryDir) := by
  refine ⟨?_, ?_, ?_, ?_, ?_⟩
  · simp [process_parallel, ppGo_spec]
  · simp [process_parallel, ppGo_spec]
  · simp [process_parallel, ppGo_spec]
  · unfold process_directory
    cases hx : pdGo files 0 0 [] [] with
    | error m =>
      have h := pdGo_ok_iff files 0 0 [] []
      rw [hx] at h
      simpa [Except.map, exceptOk] using h
    | ok x =>
      have h := pdGo_ok_iff files 0 0 [] []
      rw [hx] at h
      simpa [Except.map, exceptOk] using h
  · intro br h
    unfold process_directory at h
    cases hx : pdGo files 0 0 [] [] with
    | error m => rw [hx] at h; simp [Except.map] at h
    | ok x =>
      rw [hx] at h
      simp only [Except.map, Except.ok.injEq] at h
      have he := pdGo_ok_errors files 0 0 [] [] x hx
      rw [← h]
      simpa using he

/-- Witness for C6 at a concrete batch: one value failure completes the
directory batch with exactly that error recorded. -/
theorem batch_error_recording_witness :
    (BatchResult.mk 1 0 1 [] [("a.sbs", "render failed")]).errors =
      [("a.sbs", PFOutcome.ok ⟨false, "a.sbs", some "render failed"⟩)].filterMap
        errEntryDir :=
  (batch_error_recording
      [("a.sbs", PFOutcome.ok ⟨false, "a.sbs", some "render failed"⟩)]).2.2.2.2
    ⟨1, 0, 1, [], [("a.sbs", "render failed")]⟩ rfl

/-- Claim C7: for every completed batch, `total = success + failed`:
`process_directory` satisfies it whenever it completes, and
`process_parallel` always. -/
theorem batch_total_invariant (files : List (String × PFOutcome)) :
    (∀ br : BatchResult, process_directory files = Except.ok br →
      br.total = br.success + br.failed) ∧
    (process_parallel files).total =
      (process_parallel files).success + (process_parallel files).failed := by
  constructor
  · intro br h
    unfold process_directory at h
    cases hx : pdGo files 0 0 [] [] with
    | error m => rw [hx] at h; simp [Except.map] at h
    | ok x =>
      rw [hx] at h
      simp only [Except.map, Except.ok.injEq] at h
      have hc := pdGo_ok_counts files 0 0 [] [] x hx
      rw [← h]
      simpa using hc.symm
  · simp [process_parallel, ppGo_spec, par_counts_split]

/-- Witness for C7 at a concrete batch of one success and one failure. -/
theorem batch_total_invariant_witness :
    (BatchResult.mk 2 1 1 [⟨true, "a.sbs", none⟩]
        [("b.sbs", "Unknown error")]).total =
      (BatchResult.mk 2 1 1 [⟨true, "a.sbs", none⟩]
          [("b.sbs", "Unknown error")]).success +
        (BatchResult.mk 2 1 1 [⟨true, "a.sbs", none⟩]
            [("b.sbs", "Unknown error")]).failed :=
  (batch_total_invariant
      [("a.sbs", PFOutcome.ok ⟨true, "a.sbs", none⟩),
       ("b.sbs", PFOutcome.ok ⟨false, "b.sbs", none⟩)]).1
    ⟨2, 1, 1, [⟨true, "a.sbs", none⟩], [("b.sbs", "Unknown error")]⟩ rfl

/-- Witness for C3 at concrete inputs `r = 7`, `s = 300`. -/
theorem resolution_exponent_clamp_witness :
    (5 ≤ log2_res 7 ∧ log2_res 7 ≤ 13) ∧
    (7 < 32 → log2_res 7 = 5) ∧
    (8192 ≤ 7 → log2_res 7 = 13) ∧
    log2_res 32 = 5 ∧ log2_res 8192 = 13 ∧
    log2_res 7 ≤ log2_res 300 ∧
    (8 ≤ map_res_log2 7 ∧ map_res_log2 7 ≤ 11) ∧
    (7 ≤ 256 → map_res_log2 7 = 8) ∧
    (2048 ≤ 7 → map_res_log2 7 = 11) ∧
    map_res_log2 7 ≤ map_res_log2 300 :=
  resolution_exponent_clamp 7 300 (by decide) (by decide)

end SatTools
